import Mathlib

/-!
Shallow embedding of the `etl_pipeline` repository (Python) in Lean 4, together
with proofs of the specification claims about it.

Conventions used throughout:
- Python exceptions become an explicit `PyExc` value; a function that can raise
  returns an `Except PyExc` result or pairs its result with an `Option PyExc`
  (the latter when side effects performed before the raise must stay visible).
- Side effects (HTTP requests, `time.sleep`, SQL statements) are recorded in an
  event list returned next to the result.
- The remote API is a response environment: a function from the index of the
  request (in the order the code issues them) to the response received.
- Machine integers, timestamps and page counts are `Nat`; Python strings are
  `String`.
-/

/-- Python exception values, restricted to the classes that appear in the
repository.  `stopPipelineException` and `stopPayloadException` are the two
control-flow signal classes of `pipeline/exceptions.py` (that file is not part
of the sources provided; the two classes are modelled from the spec as plain
exception classes carrying a message, distinct from every other exception).
`typeError` models Python's built-in `TypeError`. -/
inductive PyExc where
  | stopPipelineException (msg : String)
  | stopPayloadException (msg : String)
  | apiErrorException
  | missingPrimaryKeyException (msg : String)
  | typeError (msg : String)
  | otherException (tag : String)
deriving Repr, DecidableEq

/-- Python's `max` over a list of naturals: `none` on the empty list (the
source always guards the call with a length check). -/
def pyMax : List Nat → Option Nat
  | [] => none
  | x :: xs => some (xs.foldl max x)

/-! ## `intercom/api.py` -/

/-- One element of the `conversations` array of a search response, restricted
to the fields the code reads: `id`, `updated_at` and `source.type`. -/
structure ConvSummary where
  id : String
  updated_at : Nat
  source_type : String
deriving Repr, DecidableEq

/-- A response to `POST /conversations/search`: the `Status` header, the
`conversations` array and `pages.total_pages`. -/
structure SearchResponse where
  status : String
  conversations : List ConvSummary
  total_pages : Nat
deriving Repr, DecidableEq

/-- The JSON body of `GET /conversations/{id}`, restricted to the fields that
the claims mention (`id`, `updated_at`); the remaining fields are flattened
mechanically by the transformer and play no role in any claim. -/
structure ApiConversation where
  id : String
  updated_at : Nat
deriving Repr, DecidableEq

/-- A response to `GET /conversations/{id}`. -/
structure DetailResponse where
  status : String
  body : ApiConversation
deriving Repr, DecidableEq

/-- The structured boolean filter tree sent in the `query` field of a search
request: a `field/operator/value` leaf, or an `AND`/`OR` node over a list of
sub-filters. -/
inductive QueryFilter where
  | cond (field : String) (op : String) (value : Nat)
  | andq (subs : List QueryFilter)
  | orq (subs : List QueryFilter)
deriving Repr

/-- Semantics of a filter tree applied to a conversation with the given
`updated_at` value (the only field the repository ever filters on). -/
def QueryFilter.matches : QueryFilter → Nat → Bool
  | .cond f op v, u =>
      decide (f = "updated_at") &&
        (if op = ">" then decide (v < u)
         else if op = "=" then decide (u = v)
         else if op = "<" then decide (u < v)
         else false)
  | .andq [], _ => true
  | .andq (q :: qs), u => QueryFilter.matches q u && QueryFilter.matches (.andq qs) u
  | .orq [], _ => false
  | .orq (q :: qs), u => QueryFilter.matches q u || QueryFilter.matches (.orq qs) u

/-- Observable events of an API-client call: a search request (with the filter
and the requested page, `none` when the request carries no pagination field), a
detail fetch, or a `time.sleep` of the given number of seconds. -/
inductive ApiEv where
  | search (query : QueryFilter) (page : Option Nat)
  | fetch (conversation_id : String)
  | sleep (secs : Nat)

/-- An event is an attempt (an HTTP request) unless it is a sleep. -/
def ApiEv.isRequest : ApiEv → Bool
  | .sleep _ => false
  | _ => true

/-- The filter of `get_conversation_max_updated_timestamp`:
`updated_at > start_timestamp`. -/
def maxUpdatedQuery (start_timestamp : Nat) : QueryFilter :=
  QueryFilter.cond "updated_at" ">" start_timestamp

/-- The `get_payload` filter of
`get_conversation_ids_last_updated_between_timestamps`:
`updated_at > start AND (updated_at = end OR updated_at < end)`. -/
def get_payload_query (start_timestamp end_timestamp : Nat) : QueryFilter :=
  QueryFilter.andq
    [ QueryFilter.cond "updated_at" ">" start_timestamp,
      QueryFilter.orq
        [ QueryFilter.cond "updated_at" "=" end_timestamp,
          QueryFilter.cond "updated_at" "<" end_timestamp ] ]

/-- The retry loop shared by the search-request sites (`while failed_attempts
<= retries: ...`): issue the request; on a `"200 OK"` status header stop,
otherwise sleep `backoff` seconds and retry.  `fuel` is the number of attempts
still allowed, i.e. `retries + 1 - failed_attempts`; `i` is the index of the
next request in the response environment.  On success the response, the next
request index and the remaining budget are returned; `none` means the budget
was exhausted (the `else` clause of the `while` raises). -/
def searchAttempts (env : Nat → SearchResponse) (backoff : Nat) (query : QueryFilter)
    (page : Option Nat) : Nat → Nat → Option (SearchResponse × Nat × Nat) × List ApiEv
  | 0, _ => (none, [])
  | fuel + 1, i =>
      let r := env i
      if r.status = "200 OK" then (some (r, i + 1, fuel + 1), [ApiEv.search query page])
      else
        let rest := searchAttempts env backoff query page fuel (i + 1)
        (rest.1, ApiEv.search query page :: ApiEv.sleep backoff :: rest.2)

/-- The filter `conv["source"]["type"] == "conversation"` applied to the
`conversations` array of a search response. -/
def conversationTypeOnly (convs : List ConvSummary) : List ConvSummary :=
  convs.filter (fun c => decide (c.source_type = "conversation"))

/-- Model of `get_conversation_max_updated_timestamp`: retry the one-filter
search until it succeeds, then return the maximum `updated_at` among first-page
results whose source type is `"conversation"`, or `None` when there are none. -/
def get_conversation_max_updated_timestamp (env : Nat → SearchResponse)
    (start_timestamp retries backoff : Nat) : Except PyExc (Option Nat) × List ApiEv :=
  match searchAttempts env backoff (maxUpdatedQuery start_timestamp) none (retries + 1) 0 with
  | (none, evs) => (Except.error PyExc.apiErrorException, evs)
  | (some (r, _, _), evs) =>
      let updated_at_values := (conversationTypeOnly r.conversations).map (fun c => c.updated_at)
      (Except.ok (pyMax updated_at_values), evs)

/-- The descending page loop of
`get_conversation_ids_last_updated_between_timestamps`: fetch `page` (retrying
on failure from the remaining shared budget `fuel`), append the conversation
ids of the response, then move to `page - 1` while `page > 1`, else stop.  A
`none` result means the retry budget was exhausted. -/
def idsPagesLoop (env : Nat → SearchResponse) (start_timestamp end_timestamp backoff : Nat) :
    Nat → Nat → Nat → List String → Option (List String) × List ApiEv
  | 0, fuel, i, acc =>
    match searchAttempts env backoff (get_payload_query start_timestamp end_timestamp)
        (some 0) fuel i with
    | (none, evs) => (none, evs)
    | (some (r, _, _), evs) =>
        (some (acc ++ (conversationTypeOnly r.conversations).map (fun c => c.id)), evs)
  | 1, fuel, i, acc =>
    match searchAttempts env backoff (get_payload_query start_timestamp end_timestamp)
        (some 1) fuel i with
    | (none, evs) => (none, evs)
    | (some (r, _, _), evs) =>
        (some (acc ++ (conversationTypeOnly r.conversations).map (fun c => c.id)), evs)
  | p + 2, fuel, i, acc =>
    match searchAttempts env backoff (get_payload_query start_timestamp end_timestamp)
        (some (p + 2)) fuel i with
    | (none, evs) => (none, evs)
    | (some (r, i2, fuel2), evs) =>
        let rest := idsPagesLoop env start_timestamp end_timestamp backoff (p + 1) fuel2 i2
          (acc ++ (conversationTypeOnly r.conversations).map (fun c => c.id))
        (rest.1, evs ++ rest.2)

/-- Model of `get_conversation_ids_last_updated_between_timestamps`: an initial
page-1 request (retried) reads `pages.total_pages`, then pages are fetched from
`total_pages` down to `1` (the two loops share one `failed_attempts` budget)
and the per-page id lists are concatenated in that order. -/
def get_conversation_ids_last_updated_between_timestamps (env : Nat → SearchResponse)
    (start_timestamp end_timestamp retries backoff : Nat) :
    Except PyExc (List String) × List ApiEv :=
  match searchAttempts env backoff (get_payload_query start_timestamp end_timestamp)
      (some 1) (retries + 1) 0 with
  | (none, evs) => (Except.error PyExc.apiErrorException, evs)
  | (some (r, i2, fuel2), evs) =>
      match idsPagesLoop env start_timestamp end_timestamp backoff r.total_pages fuel2 i2 [] with
      | (none, evs2) => (Except.error PyExc.apiErrorException, evs ++ evs2)
      | (some ids, evs2) => (Except.ok ids, evs ++ evs2)

/-- The retry loop of `get_conversation_details` (same policy, detail
endpoint). -/
def detailAttempts (responses : Nat → DetailResponse) (conversation_id : String)
    (backoff : Nat) : Nat → Nat → Option ApiConversation × List ApiEv
  | 0, _ => (none, [])
  | fuel + 1, k =>
      let r := responses k
      if r.status = "200 OK" then (some r.body, [ApiEv.fetch conversation_id])
      else
        let rest := detailAttempts responses conversation_id backoff fuel (k + 1)
        (rest.1, ApiEv.fetch conversation_id :: ApiEv.sleep backoff :: rest.2)

/-- Model of `get_conversation_details`: retry the detail fetch until success,
returning the JSON body; raise `APIErrorException` when the budget runs out. -/
def get_conversation_details (responses : Nat → DetailResponse) (conversation_id : String)
    (retries backoff : Nat) : Except PyExc ApiConversation × List ApiEv :=
  match detailAttempts responses conversation_id backoff (retries + 1) 0 with
  | (none, evs) => (Except.error PyExc.apiErrorException, evs)
  | (some body, evs) => (Except.ok body, evs)

/-! ## `database/database_operations.py` and `database/exceptions.py` -/

/-- A database row: an association list from column name to value, in column
order. -/
abbrev DbRow := List (String × String)

/-- Value of column `c` in row `r` (first binding wins, as in a SQL row, where
column names are unique). -/
def DbRow.getD (r : DbRow) (c : String) : String :=
  match r.find? (fun b => decide (b.1 = c)) with
  | some b => b.2
  | none => ""

/-- A pandas dataframe, restricted to what the loader reads: the column
header and the list of rows. -/
structure DataFrame where
  columns : List String
  rows : List DbRow
deriving Repr

/-- The `information_schema` metadata of a destination table that the loader
queries: the column header and the list of `PRIMARY KEY` constraints, each a
constraint name with its ordered key columns. -/
structure TableMeta where
  columns : List String
  pkConstraints : List (String × List String)
deriving Repr

/-- SQL statements that create, move or delete data (`SELECT`s against
`information_schema` are not recorded: the claims speak about data
movement). -/
inductive SqlOp where
  | createTempTable (name : String)
  | copyInto (schema : Option String) (table : String) (columns : List String) (nrows : Nat)
  | mergeInto (table : String)
  | truncateTable (name : String)
  | deleteFrom (schema : String) (table : String) (conversation_id : String)
deriving Repr, DecidableEq

/-- Number of required (non-`self`) arguments of
`MissingPrimaryKeyException.__init__` in `database/exceptions.py`
(`def __init__(self, msg): self.msg = msg`). -/
def missingPrimaryKeyInitRequiredArgs : Nat := 1

/-- The exception produced by the statement `raise MissingPrimaryKeyException`
in `get_primary_key_name`.  The statement names the class, not an instance, so
Python instantiates the class with zero arguments; because `__init__` requires
the positional argument `msg`, the instantiation itself fails and what actually
propagates is a `TypeError`, not a `MissingPrimaryKeyException`. -/
def raisedBareMissingPrimaryKey : PyExc :=
  if missingPrimaryKeyInitRequiredArgs = 0 then PyExc.missingPrimaryKeyException ""
  else PyExc.typeError "MissingPrimaryKeyException.__init__ missing required argument: msg"

/-- Model of `get_primary_key_name`: count the `PRIMARY KEY` constraints of the
table; raise unless the count is exactly one, otherwise return the single
constraint name (the source's `max(constraint_name)` aggregate over one row is
that row's name). -/
def get_primary_key_name (meta : TableMeta) : Except PyExc String :=
  match meta.pkConstraints with
  | [c] => Except.ok c.1
  | _ => Except.error raisedBareMissingPrimaryKey

/-- Model of `get_key_columns`: the ordered column list of the named
constraint. -/
def get_key_columns (meta : TableMeta) (key_name : String) : List String :=
  match meta.pkConstraints.find? (fun c => decide (c.1 = key_name)) with
  | some c => c.2
  | none => []

/-- Model of `load_dataframe_to_table`: a zero-row dataframe returns before
issuing anything; otherwise one `COPY ... FROM STDIN` appends every dataframe
row to the table.  The function returns the new table contents and the
statement log. -/
def load_dataframe_to_table (schema : Option String) (table : String) (df : DataFrame)
    (rows : List DbRow) (log : List SqlOp) : List DbRow × List SqlOp :=
  if df.rows.length = 0 then (rows, log)
  else (rows ++ df.rows, log ++ [SqlOp.copyInto schema table df.columns df.rows.length])

/-- Projection of a row onto a list of key columns (the tuple the generated
`MERGE` compares with `s.col = t.col` for each primary-key column). -/
def projRow (cols : List String) (r : DbRow) : List String :=
  cols.map (fun c => DbRow.getD r c)

/-- Effect of `when matched then update set col = s.col, ...` (over the non-key
columns) on one target row `t`, taking values from the staged row `s`. -/
def updateRow (nonPk : List String) (t s : DbRow) : DbRow :=
  t.map (fun b => if b.1 ∈ nonPk then (b.1, DbRow.getD s b.1) else b)

/-- Effect of the `MERGE` statement on one target row: when some staged row
matches it on the primary-key columns (`when matched`), its non-key columns are
updated from that staged row; otherwise it is left alone. -/
def mergeUpdate (pkCols nonPk : List String) (source : List DbRow) (t : DbRow) : DbRow :=
  match source.find? (fun s => decide (projRow pkCols s = projRow pkCols t)) with
  | some s => updateRow nonPk t s
  | none => t

/-- Semantics of the generated `MERGE` statement: every target row matched on
the primary-key columns by some staged row is updated on the non-key columns
from that row (`when matched then update set ...`); staged rows matching no
target row are inserted in full (`when not matched then insert ...`). -/
def mergeRows (pkCols nonPk : List String) (target source : List DbRow) : List DbRow :=
  target.map (mergeUpdate pkCols nonPk source)
  ++ source.filter (fun s => ! target.any (fun t => decide (projRow pkCols t = projRow pkCols s)))

/-- The database state touched by one `merge_dataframe_into_table` call: the
destination table's rows, the session's temporary staging table (whether it
exists, and its rows), and the statement log. -/
structure MergeSession where
  dest : List DbRow
  tmpCreated : Bool
  tmpRows : List DbRow
  log : List SqlOp
deriving Repr

/-- Model of `merge_dataframe_into_table`.  A zero-row dataframe returns before
doing anything.  Otherwise: discover the primary key (which raises unless the
table has exactly one primary-key constraint — the session is returned
unchanged in that case, since the raise happens before any data movement),
create the staging table `tmp_<table>` if it does not exist, `COPY` the
dataframe into it, run the generated `MERGE` into the destination, and truncate
the staging table. -/
def merge_dataframe_into_table (meta : TableMeta) (table : String) (df : DataFrame)
    (st : MergeSession) : MergeSession × Option PyExc :=
  if df.rows.length = 0 then (st, none)
  else
    match get_primary_key_name meta with
    | Except.error e => (st, some e)
    | Except.ok pk_name =>
        let pk_columns := get_key_columns meta pk_name
        let non_pk_columns := df.columns.filter (fun col => decide (col ∉ pk_columns))
        let tmp_name := "tmp_" ++ table
        let tmp0 := if st.tmpCreated then st.tmpRows else []
        let log0 := st.log ++ [SqlOp.createTempTable tmp_name]
        let loaded := load_dataframe_to_table none tmp_name df tmp0 log0
        let dest2 := mergeRows pk_columns non_pk_columns st.dest loaded.1
        let log2 := loaded.2 ++ [SqlOp.mergeInto table]
        ({ dest := dest2, tmpCreated := true, tmpRows := [],
           log := log2 ++ [SqlOp.truncateTable tmp_name] }, none)

/-! ## `pipeline/pipeline.py` -/

/-- A pre-execution, post-execution or error-handling step: it mutates the
shared run state (which includes the payload queue) and may raise. -/
abbrev RunStep (α : Type) := α → α × Option PyExc

/-- A pipeline step: it mutates the shared core state (the payload holds a
cursor into the run's database connection) and the current payload, and may
raise. -/
abbrev PipeStep (σ π : Type) := σ → π → (σ × π) × Option PyExc

/-- A `Pipeline` object: the four ordered step lists. -/
structure PipelineModel (σ π : Type) where
  pre_execution_steps : List (RunStep (σ × List π))
  pipeline_steps : List (PipeStep σ π)
  post_execution_steps : List (RunStep (σ × List π))
  error_handling_steps : List (RunStep (σ × List π))

/-- Shared loop of `run_pre_execution_steps`, `run_post_execution_steps` and
`run_error_handling`: run each step in order; a raise aborts the remaining
steps and propagates. -/
def runSteps {α : Type} : List (RunStep α) → α → α × Option PyExc
  | [], s => (s, none)
  | st :: rest, s =>
      match st s with
      | (s2, none) => runSteps rest s2
      | (s2, some e) => (s2, some e)

/-- Model of `Pipeline.run_payload`: run each pipeline step in order on the
payload; a `StopPayloadException` breaks out of the loop (the payload is
considered processed, not an error); any other exception propagates. -/
def run_payload {σ π : Type} : List (PipeStep σ π) → σ → π → (σ × π) × Option PyExc
  | [], s, p => ((s, p), none)
  | st :: rest, s, p =>
      match st s p with
      | (sp, none) => run_payload rest sp.1 sp.2
      | (sp, some (PyExc.stopPayloadException _)) => (sp, none)
      | (sp, some e) => (sp, some e)

/-- Memory events of `run_all_payloads`: `load p` when `run_payload` starts
populating the head payload `p`, `unload p` when `del self.payloads[0]`
releases it. -/
inductive MemEv (π : Type) where
  | load (p : π)
  | unload (p : π)

/-- Whether a memory event is a `load`. -/
def MemEv.isLoad {π : Type} : MemEv π → Bool
  | .load _ => true
  | .unload _ => false

/-- Model of `Pipeline.run_all_payloads`: an empty queue returns immediately
without doing anything; otherwise the head payload is processed by
`run_payload` and then deleted from the queue before the next one is touched.
An exception from `run_payload` leaves the (mutated) payload at the head of the
queue and propagates.  The returned event list records the loads and unloads in
order. -/
def run_all_payloads {σ π : Type} (steps : List (PipeStep σ π)) :
    σ → List π → (σ × List π) × Option PyExc × List (MemEv π)
  | s, [] => ((s, []), none, [])
  | s, p :: rest =>
      match run_payload steps s p with
      | ((s2, _), none) =>
          let r := run_all_payloads steps s2 rest
          (r.1, r.2.1, MemEv.load p :: MemEv.unload p :: r.2.2)
      | ((s2, p2), some e) => ((s2, p2 :: rest), some e, [MemEv.load p])

/-- The phases of one `Pipeline.execute` run, in the order they were
entered. -/
inductive Phase where
  | preExecution
  | processPayloads
  | postExecution
  | errorHandling
deriving Repr, DecidableEq

/-- Result of `Pipeline.execute`: the final run state, the outcome seen by the
caller (`Except.ok` when `execute` returns, `Except.error e` when the exception
`e` propagates out of it), and the phases entered, in order. -/
structure ExecOutcome (σ π : Type) where
  state : σ × List π
  result : Except PyExc Unit
  phases : List Phase

/-- The body of the inner `try` of `Pipeline.execute`: the pre-execution steps
followed — when they did not raise — by `run_all_payloads`.  Returns the state,
the pending exception if any, and the phases entered. -/
def innerRun {σ π : Type} (m : PipelineModel σ π) (s0 : σ × List π) :
    ((σ × List π) × Option PyExc) × List Phase :=
  match runSteps m.pre_execution_steps s0 with
  | (s1, some e) => ((s1, some e), [Phase.preExecution])
  | (s1, none) =>
      let r := run_all_payloads m.pipeline_steps s1.1 s1.2
      ((r.1, r.2.1), [Phase.preExecution, Phase.processPayloads])

/-- The `except StopPipelineException` handler wrapped around the inner `try`
of `Pipeline.execute`: a pending `StopPipelineException` is caught (logged, not
an error); everything else passes through. -/
def caughtRun {σ π : Type} (m : PipelineModel σ π) (s0 : σ × List π) :
    ((σ × List π) × Option PyExc) × List Phase :=
  match innerRun m s0 with
  | ((s, some (PyExc.stopPipelineException _)), phs) => ((s, none), phs)
  | x => x

/-- Model of `Pipeline.execute`.  A `StopPipelineException` raised by the
pre-execution steps or while running payloads is caught (not an error) and the
run proceeds to the post-execution steps; the post-execution steps also run on
the exception-free path.  Any other exception from the inner scope — and any
exception from the post-execution steps — triggers the error-handling steps and
is then re-raised to the caller; an exception raised by an error-handling step
itself propagates instead of the original. -/
def Pipeline.execute {σ π : Type} (m : PipelineModel σ π) (s0 : σ × List π) :
    ExecOutcome σ π :=
  match caughtRun m s0 with
  | ((s, none), phs) =>
      match runSteps m.post_execution_steps s with
      | (s2, none) => { state := s2, result := Except.ok (), phases := phs ++ [Phase.postExecution] }
      | (s2, some e) =>
          match runSteps m.error_handling_steps s2 with
          | (s3, none) =>
              { state := s3, result := Except.error e,
                phases := phs ++ [Phase.postExecution, Phase.errorHandling] }
          | (s3, some e2) =>
              { state := s3, result := Except.error e2,
                phases := phs ++ [Phase.postExecution, Phase.errorHandling] }
  | ((s, some e), phs) =>
      match runSteps m.error_handling_steps s with
      | (s3, none) =>
          { state := s3, result := Except.error e, phases := phs ++ [Phase.errorHandling] }
      | (s3, some e2) =>
          { state := s3, result := Except.error e2, phases := phs ++ [Phase.errorHandling] }

/-! ## `intercom/conversation/*.py` -/

/-- SQL `coalesce(max(updated_at), 0)` over the `updated_at` values of the
`conversations` table. -/
def coalesceMax0 (updatedAts : List Nat) : Nat :=
  (pyMax updatedAts).getD 0

/-- Capping performed by `ParseApiData` on the `updated_at` column of the
`conversations` row: `min(payload.api_data['updated_at'],
payload.end_timestamp)`, so that future pipeline runs remain consistent. -/
def ParseApiData.cappedUpdatedAt (api_updated_at end_timestamp : Nat) : Nat :=
  min api_updated_at end_timestamp

/-- The run state of the Intercom conversation pipeline: the response
environments of the three remote endpoints it may call, the `conversations`
destination table (as `(id, updated_at)` pairs: the in-transaction view and the
durable committed view), a counter of write statements issued on the cursor,
and the connection flags. -/
structure IcState where
  maxEnv : Nat → SearchResponse
  idsEnv : Nat → SearchResponse
  detailEnv : String → Nat → DetailResponse
  rows : List (String × Nat)
  committedRows : List (String × Nat)
  writeCount : Nat
  connected : Bool
  committed : Bool
  rolledBack : Bool

/-- A work-unit `Payload` of the conversation pipeline: attributes set by
`GetPayloads`, then populated step by step. -/
structure IcPayload where
  conversation_id : String
  start_timestamp : Nat
  end_timestamp : Nat
  detailResponses : Nat → DetailResponse
  api_data : Option ApiConversation
  parsed_updated_at : Option Nat

/-- Model of `GetDatabaseConnection.execute`: open the run's single connection
and cursor. -/
def GetDatabaseConnection.execute : RunStep (IcState × List IcPayload) :=
  fun s => (({ s.1 with connected := true }, s.2), none)

/-- Model of `GetPayloads.execute`: read the start watermark
(`coalesce(max(updated_at), 0)` over `intercom.conversations`), resolve the end
timestamp with `get_conversation_max_updated_timestamp`; when it is `None`
raise the early-stop `StopPipelineException`; otherwise enumerate the changed
conversation ids over `(start, end]` and build one payload per id.  Both remote
calls use the source's default `retries=5, backoff=5`. -/
def GetPayloads.execute : RunStep (IcState × List IcPayload) :=
  fun s =>
    let st := s.1
    let start_timestamp := coalesceMax0 (st.rows.map (fun r => r.2))
    match (get_conversation_max_updated_timestamp st.maxEnv start_timestamp 5 5).1 with
    | Except.error e => (s, some e)
    | Except.ok none =>
        (s, some (PyExc.stopPipelineException
          "No updates to conversations found, stopping pipeline."))
    | Except.ok (some end_timestamp) =>
        match (get_conversation_ids_last_updated_between_timestamps st.idsEnv
            start_timestamp end_timestamp 5 5).1 with
        | Except.error e => (s, some e)
        | Except.ok ids =>
            let payloads := ids.map (fun cid =>
              { conversation_id := cid
                start_timestamp := start_timestamp
                end_timestamp := end_timestamp
                detailResponses := st.detailEnv cid
                api_data := none
                parsed_updated_at := none : IcPayload })
            ((st, payloads), none)

/-- Model of `RetrieveApiData.execute`: fetch the conversation's detail JSON
into `payload.api_data` (default `retries=5, backoff=5`). -/
def RetrieveApiData.execute : PipeStep IcState IcPayload :=
  fun s p =>
    match (get_conversation_details p.detailResponses p.conversation_id 5 5).1 with
    | Except.error e => ((s, p), some e)
    | Except.ok body => ((s, { p with api_data := some body }), none)

/-- Model of `ParseApiData.execute`, restricted to the `conversations` row the
claims are about: derive the row's `updated_at`, capped at the payload's end
timestamp.  Reading a missing `api_data` attribute raises (Python
`AttributeError`); the construction of the other per-table dataframes is the
mechanical flattening the spec leaves out of scope. -/
def ParseApiData.execute : PipeStep IcState IcPayload :=
  fun s p =>
    match p.api_data with
    | none => ((s, p), some (PyExc.otherException "AttributeError"))
    | some a =>
        let u := ParseApiData.cappedUpdatedAt a.updated_at p.end_timestamp
        ((s, { p with parsed_updated_at := some u }), none)

/-- Model of `LoadToDatabase.execute`, restricted to the `conversations` table:
delete the rows of this conversation id, then load the parsed row (two write
statements on the cursor).  The other per-table delete/loads and the
`conversation_parts` merge repeat the same two primitives and are outside every
claim. -/
def LoadToDatabase.execute : PipeStep IcState IcPayload :=
  fun s p =>
    match p.parsed_updated_at with
    | none => ((s, p), some (PyExc.otherException "AttributeError"))
    | some u =>
        (({ s with
              rows := s.rows.filter (fun r => ! decide (r.1 = p.conversation_id))
                ++ [(p.conversation_id, u)]
              writeCount := s.writeCount + 2 }, p), none)

/-- Model of `CommitTransaction.execute`: `pipeline.conn.commit()` makes the
in-transaction view durable. -/
def CommitTransaction.execute : RunStep (IcState × List IcPayload) :=
  fun s => (({ s.1 with committedRows := s.1.rows, committed := true }, s.2), none)

/-- Model of `RollbackTransaction.execute`: `pipeline.conn.rollback()` discards
the in-transaction writes. -/
def RollbackTransaction.execute : RunStep (IcState × List IcPayload) :=
  fun s => (({ s.1 with rows := s.1.committedRows, rolledBack := true }, s.2), none)

/-- The `IntercomConversationPipeline` object of
`intercom/conversation/pipeline.py`: its four step lists. -/
def IntercomConversationPipeline : PipelineModel IcState IcPayload :=
  { pre_execution_steps := [GetDatabaseConnection.execute, GetPayloads.execute]
    pipeline_steps := [RetrieveApiData.execute, ParseApiData.execute, LoadToDatabase.execute]
    post_execution_steps := [CommitTransaction.execute]
    error_handling_steps := [RollbackTransaction.execute] }

/-! ## Derived descriptions of the success-path pagination (used to state the
claims about `get_conversation_ids_last_updated_between_timestamps`) -/

/-- The identifier list extracted from one page response: the ids of its
conversations whose source type is `"conversation"`. -/
def pageIds (r : SearchResponse) : List String :=
  (conversationTypeOnly r.conversations).map (fun c => c.id)

/-- Identifiers produced by the success path of the descending page loop
starting at request index `i` with current page `page`: the page ids of the
response to each request, for pages `page, page - 1, ..., 1` — except that for
`page ≤ 1` (including the `page = 0` case that arises when the initial request
reports `total_pages = 0`) exactly one request is made. -/
def pagesIds (env : Nat → SearchResponse) (i : Nat) : Nat → List String
  | 0 => pageIds (env i)
  | 1 => pageIds (env i)
  | p + 2 => pageIds (env i) ++ pagesIds env (i + 1) (p + 1)

/-- Requests issued by the success path of the descending page loop at current
page `page`: one search per page, from `page` down to `1` (a single request
when `page ≤ 1`). -/
def pagesTrace (q : QueryFilter) : Nat → List ApiEv
  | 0 => [ApiEv.search q (some 0)]
  | 1 => [ApiEv.search q (some 1)]
  | p + 2 => ApiEv.search q (some (p + 2)) :: pagesTrace q (p + 1)

/-- A response environment exercising the `total_pages = 0` corner of the
paginated search: the initial page-1 request reports zero pages, and the
follow-up request (which the code then makes for page `0`) returns one
`"conversation"`-typed entity. -/
def c4CxEnv : Nat → SearchResponse := fun k =>
  if k = 0 then { status := "200 OK", conversations := [], total_pages := 0 }
  else { status := "200 OK",
         conversations := [{ id := "x", updated_at := 7, source_type := "conversation" }],
         total_pages := 0 }

/-- A two-page all-success environment used to witness the descending
pagination: every response advertises two pages and returns the
`"conversation"`-typed entity `"a"` plus a `"lead"`-typed entity. -/
def c4WitEnv : Nat → SearchResponse := fun _ =>
  { status := "200 OK",
    conversations := [{ id := "a", updated_at := 5, source_type := "conversation" },
                      { id := "b", updated_at := 6, source_type := "lead" }],
    total_pages := 2 }

/-- A tiny pipeline whose only pre-execution step raises the early-stop
signal; used to witness the engine contract. -/
def c1StopModel : PipelineModel Nat Nat :=
  { pre_execution_steps := [fun s => (s, some (PyExc.stopPipelineException "stop"))]
    pipeline_steps := []
    post_execution_steps := []
    error_handling_steps := [] }

/-- A tiny pipeline whose only pre-execution step raises an ordinary
exception; used to witness the engine contract's error path. -/
def c1ErrModel : PipelineModel Nat Nat :=
  { pre_execution_steps := [fun s => (s, some (PyExc.otherException "boom"))]
    pipeline_steps := []
    post_execution_steps := []
    error_handling_steps := [] }

/-- A concrete run state whose remote reports no changed conversations; used
to witness the no-new-data scenario. -/
def c6WitState : IcState :=
  { maxEnv := fun _ => { status := "200 OK", conversations := [], total_pages := 0 }
    idsEnv := fun _ => { status := "200 OK", conversations := [], total_pages := 0 }
    detailEnv := fun _ _ => { status := "200 OK", body := { id := "", updated_at := 0 } }
    rows := [("a", 3)]
    committedRows := [("a", 3)]
    writeCount := 0
    connected := false
    committed := false
    rolledBack := false }

/-! ## Helper lemmas about the API client -/

/-- When the response to the attempt at index `i` is a success, one request is
made and the retry loop stops at once. -/
theorem searchAttempts_ok (env : Nat → SearchResponse) (b : Nat) (q : QueryFilter)
    (pg : Option Nat) (f i : Nat) (h : (env i).status = "200 OK") :
    searchAttempts env b q pg (f + 1) i = (some (env i, i + 1, f + 1), [ApiEv.search q pg]) := by
  simp [searchAttempts, h]

/-- When no response indicates success, the retry loop makes one attempt per
unit of budget, sleeping `b` after each failure, and then gives up. -/
theorem searchAttempts_allFail (env : Nat → SearchResponse) (b : Nat) (q : QueryFilter)
    (pg : Option Nat) (h : ∀ k, (env k).status ≠ "200 OK") :
    ∀ n i, searchAttempts env b q pg n i =
      (none, (List.replicate n [ApiEv.search q pg, ApiEv.sleep b]).flatten) := by
  intro n
  induction n with
  | zero => intro i; simp [searchAttempts]
  | succ n ih =>
      intro i
      simp [searchAttempts, h i, ih (i + 1), List.replicate_succ]

/-- Failing analogue for the detail endpoint. -/
theorem detailAttempts_allFail (responses : Nat → DetailResponse) (cid : String) (b : Nat)
    (h : ∀ k, (responses k).status ≠ "200 OK") :
    ∀ n i, detailAttempts responses cid b n i =
      (none, (List.replicate n [ApiEv.fetch cid, ApiEv.sleep b]).flatten) := by
  intro n
  induction n with
  | zero => intro i; simp [detailAttempts]
  | succ n ih =>
      intro i
      simp [detailAttempts, h i, ih (i + 1), List.replicate_succ]

/-- Counting the requests in an all-failure trace: one per unit of budget. -/
theorem count_requests_replicate (a : ApiEv) (b : Nat) (ha : a.isRequest = true) :
    ∀ n, (((List.replicate n [a, ApiEv.sleep b]).flatten).filter ApiEv.isRequest).length = n := by
  intro n
  induction n with
  | zero => simp
  | succ n ih =>
      have hs : ApiEv.isRequest (ApiEv.sleep b) = false := rfl
      simp only [List.replicate_succ, List.flatten_cons, List.cons_append, List.nil_append,
        List.filter_cons, ha, hs, if_true, Bool.false_eq_true, if_false, List.length_cons, ih]

/-- C2: for every non-negative retry budget `R` and every remote call whose
responses never carry the `"200 OK"` status header, each of the three API-client
functions makes exactly `R + 1` attempts, sleeping the fixed `backoff` after
each failed attempt (in particular between any two consecutive attempts), and
then raises `APIErrorException`.  The trace equalities exhibit the exact event
sequence; the length equalities count the attempts. -/
theorem C2_retry_budget (R b : Nat) (cid : String) (s e : Nat)
    (dres : Nat → DetailResponse) (menv ienv : Nat → SearchResponse)
    (hd : ∀ k, (dres k).status ≠ "200 OK")
    (hm : ∀ k, (menv k).status ≠ "200 OK")
    (hi : ∀ k, (ienv k).status ≠ "200 OK") :
    get_conversation_details dres cid R b =
      (Except.error PyExc.apiErrorException,
        (List.replicate (R + 1) [ApiEv.fetch cid, ApiEv.sleep b]).flatten) ∧
    get_conversation_max_updated_timestamp menv s R b =
      (Except.error PyExc.apiErrorException,
        (List.replicate (R + 1) [ApiEv.search (maxUpdatedQuery s) none, ApiEv.sleep b]).flatten) ∧
    get_conversation_ids_last_updated_between_timestamps ienv s e R b =
      (Except.error PyExc.apiErrorException,
        (List.replicate (R + 1)
          [ApiEv.search (get_payload_query s e) (some 1), ApiEv.sleep b]).flatten) ∧
    ((get_conversation_details dres cid R b).2.filter ApiEv.isRequest).length = R + 1 ∧
    ((get_conversation_max_updated_timestamp menv s R b).2.filter ApiEv.isRequest).length
      = R + 1 ∧
    ((get_conversation_ids_last_updated_between_timestamps ienv s e R b).2.filter
      ApiEv.isRequest).length = R + 1 := by
  have h1 : get_conversation_details dres cid R b =
      (Except.error PyExc.apiErrorException,
        (List.replicate (R + 1) [ApiEv.fetch cid, ApiEv.sleep b]).flatten) := by
    unfold get_conversation_details
    rw [detailAttempts_allFail dres cid b hd (R + 1) 0]
  have h2 : get_conversation_max_updated_timestamp menv s R b =
      (Except.error PyExc.apiErrorException,
        (List.replicate (R + 1) [ApiEv.search (maxUpdatedQuery s) none, ApiEv.sleep b]).flatten) := by
    unfold get_conversation_max_updated_timestamp
    rw [searchAttempts_allFail menv b (maxUpdatedQuery s) none hm (R + 1) 0]
  have h3 : get_conversation_ids_last_updated_between_timestamps ienv s e R b =
      (Except.error PyExc.apiErrorException,
        (List.replicate (R + 1)
          [ApiEv.search (get_payload_query s e) (some 1), ApiEv.sleep b]).flatten) := by
    unfold get_conversation_ids_last_updated_between_timestamps
    rw [searchAttempts_allFail ienv b (get_payload_query s e) (some 1) hi (R + 1) 0]
  refine ⟨h1, h2, h3, ?_, ?_, ?_⟩
  · rw [h1]; exact count_requests_replicate (ApiEv.fetch cid) b rfl (R + 1)
  · rw [h2]
    exact count_requests_replicate (ApiEv.search (maxUpdatedQuery s) none) b rfl (R + 1)
  · rw [h3]
    exact count_requests_replicate (ApiEv.search (get_payload_query s e) (some 1)) b rfl (R + 1)

/-- Witness for C2 at `R = 2`, `backoff = 7` and a remote that always answers
with status `"500"`. -/
theorem C2_retry_budget_witness :
    get_conversation_details
        (fun _ => { status := "500", body := { id := "c", updated_at := 0 } }) "c" 2 7 =
      (Except.error PyExc.apiErrorException,
        (List.replicate 3 [ApiEv.fetch "c", ApiEv.sleep 7]).flatten) ∧
    ((get_conversation_ids_last_updated_between_timestamps
        (fun _ => { status := "500", conversations := [], total_pages := 0 }) 0 10 2 7).2.filter
      ApiEv.isRequest).length = 3 := by
  have hne : ("500" : String) ≠ "200 OK" := by decide
  have h := C2_retry_budget 2 7 "c" 0 10
    (fun _ => { status := "500", body := { id := "c", updated_at := 0 } })
    (fun _ => { status := "500", conversations := [], total_pages := 0 })
    (fun _ => { status := "500", conversations := [], total_pages := 0 })
    (fun _ => hne) (fun _ => hne) (fun _ => hne)
  exact ⟨h.1, h.2.2.2.2.2⟩

/-- A conversations array with no `"conversation"`-typed element filters to the
empty list. -/
theorem conversationTypeOnly_eq_nil (l : List ConvSummary)
    (h : ∀ c ∈ l, c.source_type ≠ "conversation") : conversationTypeOnly l = [] := by
  simp only [conversationTypeOnly, List.filter_eq_nil_iff, decide_eq_true_eq]
  exact h

/-- When the first response succeeds, `get_conversation_max_updated_timestamp`
makes exactly one request and returns the maximum over the type-filtered
`updated_at` values of that response. -/
theorem get_max_first_ok (env : Nat → SearchResponse) (s R b : Nat)
    (h : (env 0).status = "200 OK") :
    get_conversation_max_updated_timestamp env s R b =
      (Except.ok
        (pyMax ((conversationTypeOnly (env 0).conversations).map (fun c => c.updated_at))),
       [ApiEv.search (maxUpdatedQuery s) none]) := by
  unfold get_conversation_max_updated_timestamp
  rw [searchAttempts_ok env b (maxUpdatedQuery s) none R 0 h]

/-- Success-path characterization of the descending page loop: with every
response succeeding and at least one unit of budget left, the loop requests
pages `page, page - 1, ..., 1` (just `page` itself when `page ≤ 1`) and appends
the type-filtered ids of each response in that order. -/
theorem idsPagesLoop_success (env : Nat → SearchResponse) (s e b : Nat)
    (hok : ∀ k, (env k).status = "200 OK") :
    ∀ page fuel i acc, 1 ≤ fuel →
      idsPagesLoop env s e b page fuel i acc =
        (some (acc ++ pagesIds env i page), pagesTrace (get_payload_query s e) page) := by
  intro page
  induction page using Nat.strong_induction_on with
  | _ page ih =>
    intro fuel i acc hfuel
    obtain ⟨f, rfl⟩ : ∃ f, fuel = f + 1 := ⟨fuel - 1, by omega⟩
    match page with
    | 0 =>
        simp only [idsPagesLoop, searchAttempts_ok env b _ _ f i (hok i)]
        simp [pagesIds, pagesTrace, pageIds]
    | 1 =>
        simp only [idsPagesLoop, searchAttempts_ok env b _ _ f i (hok i)]
        simp [pagesIds, pagesTrace, pageIds]
    | p + 2 =>
        simp only [idsPagesLoop, searchAttempts_ok env b _ _ f i (hok i)]
        simp only [ih (p + 1) (by omega) (f + 1) (i + 1)
          (acc ++ (conversationTypeOnly (env i).conversations).map (fun c => c.id)) (by omega)]
        simp [pagesIds, pagesTrace, pageIds, List.append_assoc]

/-- On the all-success path with no `"conversation"`-typed result anywhere, the
descending loop accumulates nothing. -/
theorem pagesIds_eq_nil (env : Nat → SearchResponse)
    (htype : ∀ k, ∀ c ∈ (env k).conversations, c.source_type ≠ "conversation") :
    ∀ page i, pagesIds env i page = [] := by
  intro page
  induction page using Nat.strong_induction_on with
  | _ page ih =>
    intro i
    match page with
    | 0 => simp [pagesIds, pageIds, conversationTypeOnly_eq_nil _ (htype i)]
    | 1 => simp [pagesIds, pageIds, conversationTypeOnly_eq_nil _ (htype i)]
    | p + 2 =>
        simp [pagesIds, pageIds, conversationTypeOnly_eq_nil _ (htype i),
          ih (p + 1) (by omega) (i + 1)]

/-- C10: both the max-change-time query and the paginated identifier
enumeration keep only entities whose `source.type` is `"conversation"`; when
every changed entity in every response has another source type, the former
reports `None` (no new data) and the latter returns no identifiers. -/
theorem C10_source_type_filter (s e R b : Nat) (menv ienv : Nat → SearchResponse)
    (hmok : (menv 0).status = "200 OK")
    (hmtype : ∀ c ∈ (menv 0).conversations, c.source_type ≠ "conversation")
    (hiok : ∀ k, (ienv k).status = "200 OK")
    (hitype : ∀ k, ∀ c ∈ (ienv k).conversations, c.source_type ≠ "conversation") :
    (get_conversation_max_updated_timestamp menv s R b).1 = Except.ok none ∧
    (get_conversation_ids_last_updated_between_timestamps ienv s e R b).1 = Except.ok [] := by
  constructor
  · rw [get_max_first_ok menv s R b hmok]
    simp [conversationTypeOnly_eq_nil _ hmtype, pyMax]
  · unfold get_conversation_ids_last_updated_between_timestamps
    simp only [searchAttempts_ok ienv b _ _ R 0 (hiok 0), Nat.zero_add]
    rw [idsPagesLoop_success ienv s e b hiok ((ienv 0).total_pages) (R + 1) 1 [] (by omega)]
    simp [pagesIds_eq_nil ienv hitype]

/-- Witness for C10: a window containing one changed entity of source type
`"lead"` on every page is reported as no data. -/
theorem C10_source_type_filter_witness :
    (get_conversation_max_updated_timestamp
        (fun _ => { status := "200 OK",
                    conversations := [{ id := "x", updated_at := 5, source_type := "lead" }],
                    total_pages := 3 }) 0 5 5).1 = Except.ok none ∧
    (get_conversation_ids_last_updated_between_timestamps
        (fun _ => { status := "200 OK",
                    conversations := [{ id := "x", updated_at := 5, source_type := "lead" }],
                    total_pages := 3 }) 0 9 5 5).1 = Except.ok [] := by
  have ht : ∀ c ∈ [({ id := "x", updated_at := 5, source_type := "lead" } : ConvSummary)],
      c.source_type ≠ "conversation" := by decide
  exact C10_source_type_filter 0 9 5 5 _ _ rfl ht (fun _ => rfl) (fun _ => ht)

/-- The filter built by `get_payload` selects exactly the window
`start < updated_at ≤ end`. -/
theorem get_payload_query_matches (s e u : Nat) :
    (get_payload_query s e).matches u = true ↔ (s < u ∧ u ≤ e) := by
  simp [get_payload_query, QueryFilter.matches]
  omega

/-- On the success path, the pages requested by the descending loop are
`T, T - 1, ..., 1` when the advertised page count is `T ≥ 1`. -/
theorem pagesTrace_descending (q : QueryFilter) :
    ∀ T, 1 ≤ T →
      pagesTrace q T = (List.range T).map (fun j => ApiEv.search q (some (T - j))) := by
  intro T
  induction T using Nat.strong_induction_on with
  | _ T ih =>
    intro hT
    match T with
    | 1 => simp [pagesTrace, List.range_succ_eq_map]
    | p + 2 =>
        rw [pagesTrace, ih (p + 1) (by omega) (by omega)]
        conv_rhs => rw [List.range_succ_eq_map]
        simp only [List.map_cons, List.map_map, Nat.sub_zero]
        congr 1
        exact List.map_congr_left (fun j _ => by simp [Function.comp, Nat.succ_sub_succ])

/-- Pushing a successor map through a `flatMap` over naturals. -/
theorem flatMap_map_succ (l : List Nat) (f : Nat → List String) :
    (l.map Nat.succ).flatMap f = l.flatMap (fun j => f (j + 1)) := by
  induction l with
  | nil => rfl
  | cons a t ih => simp [List.flatMap_cons, ih, Nat.succ_eq_add_one]

/-- On the success path, the identifiers accumulated by the descending loop
from request index `i` with page count `T ≥ 1` are the per-response id lists
concatenated in request order. -/
theorem pagesIds_flat (env : Nat → SearchResponse) :
    ∀ T i, 1 ≤ T →
      pagesIds env i T = (List.range T).flatMap (fun j => pageIds (env (i + j))) := by
  intro T
  induction T using Nat.strong_induction_on with
  | _ T ih =>
    intro i hT
    match T with
    | 1 => simp [pagesIds, List.range_succ_eq_map]
    | p + 2 =>
        rw [pagesIds, ih (p + 1) (by omega) (i + 1) (by omega)]
        conv_rhs => rw [List.range_succ_eq_map, List.flatMap_cons, flatMap_map_succ]
        simp only [Nat.add_zero]
        have hfun : (fun j => pageIds (env (i + 1 + j))) = (fun j => pageIds (env (i + (j + 1)))) := by
          funext j
          rw [Nat.add_assoc, Nat.add_comm 1 j]
        rw [hfun]

/-- C4 (amended): with every response indicating success and the initial
page-1 request advertising `total_pages ≥ 1`, the paginated enumeration (i)
sends the filter selecting exactly `start < updated_at ≤ end`, (ii) reads
`total_pages` from the initial page-1 request and then requests pages
`total_pages, total_pages - 1, ..., 1`, and (iii) returns the concatenation of
the per-page identifier lists in that descending-page order (duplicates
permitted).  The amendment over the original claim is the `total_pages ≥ 1`
premise: when the initial request reports `total_pages = 0`, the code makes a
single page-0 request and returns its identifiers instead of fetching no
pages (see the counterexample). -/
theorem C4_descending_pagination (s e R b : Nat) (env : Nat → SearchResponse)
    (hok : ∀ k, (env k).status = "200 OK")
    (hT : 1 ≤ (env 0).total_pages) :
    (∀ u, (get_payload_query s e).matches u = true ↔ (s < u ∧ u ≤ e)) ∧
    get_conversation_ids_last_updated_between_timestamps env s e R b =
      (Except.ok (pagesIds env 1 (env 0).total_pages),
       ApiEv.search (get_payload_query s e) (some 1)
         :: pagesTrace (get_payload_query s e) (env 0).total_pages) ∧
    pagesTrace (get_payload_query s e) (env 0).total_pages
      = (List.range (env 0).total_pages).map
          (fun j => ApiEv.search (get_payload_query s e) (some ((env 0).total_pages - j))) ∧
    pagesIds env 1 (env 0).total_pages
      = (List.range (env 0).total_pages).flatMap (fun j => pageIds (env (1 + j))) := by
  refine ⟨fun u => get_payload_query_matches s e u, ?_,
    pagesTrace_descending _ _ hT, pagesIds_flat env _ 1 hT⟩
  unfold get_conversation_ids_last_updated_between_timestamps
  simp only [searchAttempts_ok env b _ _ R 0 (hok 0), Nat.zero_add]
  rw [idsPagesLoop_success env s e b hok ((env 0).total_pages) (R + 1) 1 [] (by omega)]
  simp

/-- C4 counterexample: when the initial page-1 request reports
`total_pages = 0`, the function does not fetch the (empty) range of pages from
`total_pages` down to `1`: it issues one request for page `0` and returns that
response's identifiers, so the result differs from the concatenation over the
claimed page range, which is empty. -/
theorem C4_descending_pagination_counterexample :
    (get_conversation_ids_last_updated_between_timestamps c4CxEnv 0 10 5 5).1
        = Except.ok ["x"] ∧
    (List.range (c4CxEnv 0).total_pages).flatMap (fun j => pageIds (c4CxEnv (1 + j))) = [] ∧
    Except.ok ["x"] ≠ (Except.ok [] : Except PyExc (List String)) := by
  refine ⟨rfl, rfl, ?_⟩
  intro h
  simp at h

/-- Witness for C4 (amended) on a concrete two-page environment: the trace is
the initial page-1 request followed by requests for pages 2 then 1, and the id
of the conversation-typed entity on each page shows up twice (duplicates are
allowed by design). -/
theorem C4_descending_pagination_witness :
    get_conversation_ids_last_updated_between_timestamps c4WitEnv 0 10 5 5 =
      (Except.ok ["a", "a"],
       [ApiEv.search (get_payload_query 0 10) (some 1),
        ApiEv.search (get_payload_query 0 10) (some 2),
        ApiEv.search (get_payload_query 0 10) (some 1)]) := by
  have hT : (1 : Nat) ≤ 2 := by decide
  have h := (C4_descending_pagination 0 10 5 5 c4WitEnv (fun _ => rfl) hT).2.1
  rw [h]
  rfl

/-! ## Claims about the bulk loader -/

/-- C9: a zero-row row-set is a guaranteed no-op for both load primitives:
`load_dataframe_to_table` returns with the table contents and the statement log
untouched, and `merge_dataframe_into_table` returns before touching the
session (no staging table, no copy, no merge, no truncate). -/
theorem C9_empty_rowset_noop (schema : Option String) (table mtable : String)
    (df : DataFrame) (rows : List DbRow) (log : List SqlOp) (meta : TableMeta)
    (st : MergeSession) (hdf : df.rows = []) :
    load_dataframe_to_table schema table df rows log = (rows, log) ∧
    merge_dataframe_into_table meta mtable df st = (st, none) := by
  constructor
  · simp [load_dataframe_to_table, hdf]
  · simp [merge_dataframe_into_table, hdf]

/-- Witness for C9 on a concrete empty dataframe. -/
theorem C9_empty_rowset_noop_witness :
    load_dataframe_to_table (some "intercom") "conversations"
        { columns := ["id", "title"], rows := [] } [[("id", "1")]] [] = ([[("id", "1")]], []) ∧
    merge_dataframe_into_table { columns := ["id", "title"], pkConstraints := [("pk", ["id"])] }
        "conversation_parts" { columns := ["id", "title"], rows := [] }
        { dest := [], tmpCreated := false, tmpRows := [], log := [] } =
      ({ dest := [], tmpCreated := false, tmpRows := [], log := [] }, none) :=
  C9_empty_rowset_noop (some "intercom") "conversations" "conversation_parts"
    { columns := ["id", "title"], rows := [] } [[("id", "1")]] []
    { columns := ["id", "title"], pkConstraints := [("pk", ["id"])] }
    { dest := [], tmpCreated := false, tmpRows := [], log := [] } rfl

/-- C3 (settled as a code bug): on a destination table whose number of
primary-key constraints is not one, `merge_dataframe_into_table` does raise
before any data movement — the session (destination rows, staging table,
statement log) is returned untouched — but the exception that escapes is not
`MissingPrimaryKeyException`.  The statement `raise MissingPrimaryKeyException`
instantiates the class with zero arguments while `MissingPrimaryKeyException.__init__`
requires `msg`, so Python raises `TypeError` instead.  Evaluated here at a
table with zero primary-key constraints and at one with two. -/
theorem C3_missing_primary_key_is_typeerror :
    (merge_dataframe_into_table { columns := ["id", "v"], pkConstraints := [] }
        "conversation_parts" { columns := ["id", "v"], rows := [[("id", "1"), ("v", "a")]] }
        { dest := [], tmpCreated := false, tmpRows := [], log := [] } =
      ({ dest := [], tmpCreated := false, tmpRows := [], log := [] },
       some raisedBareMissingPrimaryKey)) ∧
    (merge_dataframe_into_table
        { columns := ["id", "v"], pkConstraints := [("pk1", ["id"]), ("pk2", ["v"])] }
        "conversation_parts" { columns := ["id", "v"], rows := [[("id", "1"), ("v", "a")]] }
        { dest := [], tmpCreated := false, tmpRows := [], log := [] } =
      ({ dest := [], tmpCreated := false, tmpRows := [], log := [] },
       some raisedBareMissingPrimaryKey)) ∧
    (∀ msg, raisedBareMissingPrimaryKey ≠ PyExc.missingPrimaryKeyException msg) ∧
    raisedBareMissingPrimaryKey =
      PyExc.typeError "MissingPrimaryKeyException.__init__ missing required argument: msg" := by
  refine ⟨rfl, rfl, ?_, rfl⟩
  intro msg h
  simp [raisedBareMissingPrimaryKey, missingPrimaryKeyInitRequiredArgs] at h

/-! ## Merge idempotence (C7) -/

/-- Updating a row changes no column outside the updated column set. -/
theorem getD_updateRow_of_not_mem (nonPk : List String) (t s : DbRow) (c : String)
    (h : c ∉ nonPk) :
    DbRow.getD (updateRow nonPk t s) c = DbRow.getD t c := by
  induction t with
  | nil => rfl
  | cons b bs ih =>
      simp only [updateRow, List.map_cons]
      have hgoal : DbRow.getD (updateRow nonPk bs s) c = DbRow.getD bs c := by
        simpa [updateRow] using ih
      by_cases hb : b.1 = c
      · have hcb : b.1 ∉ nonPk := by rw [hb]; exact h
        rw [if_neg hcb]
        unfold DbRow.getD
        rw [List.find?_cons_of_pos _ (by simp [hb]), List.find?_cons_of_pos _ (by simp [hb])]
      · by_cases hcb : b.1 ∈ nonPk
        · rw [if_pos hcb]
          unfold DbRow.getD
          rw [List.find?_cons_of_neg _ (by simp [hb]), List.find?_cons_of_neg _ (by simp [hb])]
          exact hgoal
        · rw [if_neg hcb]
          unfold DbRow.getD
          rw [List.find?_cons_of_neg _ (by simp [hb]), List.find?_cons_of_neg _ (by simp [hb])]
          exact hgoal

/-- Updating a row does not move its primary-key projection when the updated
columns are disjoint from the key columns. -/
theorem projRow_updateRow (pkCols nonPk : List String) (t s : DbRow)
    (hdisj : ∀ c ∈ pkCols, c ∉ nonPk) :
    projRow pkCols (updateRow nonPk t s) = projRow pkCols t := by
  unfold projRow
  exact List.map_congr_left (fun c hc => getD_updateRow_of_not_mem nonPk t s c (hdisj c hc))

/-- Applying the same matched-update twice is the same as applying it once. -/
theorem updateRow_updateRow (nonPk : List String) (t s : DbRow) :
    updateRow nonPk (updateRow nonPk t s) s = updateRow nonPk t s := by
  unfold updateRow
  rw [List.map_map]
  apply List.map_congr_left
  intro b _
  by_cases hb : b.1 ∈ nonPk
  · simp only [Function.comp, if_pos hb]
  · simp only [Function.comp, if_neg hb]

/-- In a row binding every column once, looking a binding's column up returns
that binding's value. -/
theorem getD_of_nodup_keys (s : DbRow) (h : (s.map Prod.fst).Nodup) :
    ∀ b ∈ s, DbRow.getD s b.1 = b.2 := by
  induction s with
  | nil => intro b hb; cases hb
  | cons a t ih =>
      intro b hb
      rw [List.map_cons] at h
      have hnd := List.nodup_cons.mp h
      rcases List.mem_cons.mp hb with rfl | hbt
      · unfold DbRow.getD
        rw [List.find?_cons_of_pos _ (by simp)]
      · have hne : a.1 ≠ b.1 := by
          intro hEq
          exact hnd.1 (hEq ▸ List.mem_map_of_mem Prod.fst hbt)
        unfold DbRow.getD
        rw [List.find?_cons_of_neg _ (by simp [hne])]
        exact ih hnd.2 b hbt

/-- Updating a distinct-keyed row with itself is the identity. -/
theorem updateRow_self (nonPk : List String) (s : DbRow) (h : (s.map Prod.fst).Nodup) :
    updateRow nonPk s s = s := by
  unfold updateRow
  have hpt : ∀ b ∈ s, (if b.1 ∈ nonPk then (b.1, DbRow.getD s b.1) else b) = b := by
    intro b hb
    by_cases hc : b.1 ∈ nonPk
    · rw [if_pos hc, getD_of_nodup_keys s h b hb]
    · rw [if_neg hc]
  rw [List.map_congr_left hpt]
  simp

/-- With pairwise-distinct primary-key projections, searching a list for the
projection of one of its members finds that member. -/
theorem find?_proj_self (pkCols : List String) (S : List DbRow) (s : DbRow)
    (hnd : (S.map (projRow pkCols)).Nodup) (hs : s ∈ S) :
    S.find? (fun s2 => decide (projRow pkCols s2 = projRow pkCols s)) = some s := by
  induction S with
  | nil => cases hs
  | cons a t ih =>
      rw [List.map_cons] at hnd
      have hndc := List.nodup_cons.mp hnd
      rcases List.mem_cons.mp hs with rfl | hst
      · rw [List.find?_cons_of_pos _ (by simp)]
      · have hne : projRow pkCols a ≠ projRow pkCols s := by
          intro hEq
          exact hndc.1 (hEq ▸ List.mem_map_of_mem (projRow pkCols) hst)
        rw [List.find?_cons_of_neg _ (by simp [hne])]
        exact ih hndc.2 hst

/-- The matched-update does not move a row's primary-key projection. -/
theorem projRow_mergeUpdate (pkCols nonPk : List String) (S : List DbRow) (t : DbRow)
    (hdisj : ∀ c ∈ pkCols, c ∉ nonPk) :
    projRow pkCols (mergeUpdate pkCols nonPk S t) = projRow pkCols t := by
  unfold mergeUpdate
  cases hf : S.find? (fun s => decide (projRow pkCols s = projRow pkCols t)) with
  | none => rfl
  | some s0 => exact projRow_updateRow pkCols nonPk t s0 hdisj

/-- Applying the matched-update twice is the same as applying it once. -/
theorem mergeUpdate_mergeUpdate (pkCols nonPk : List String) (S : List DbRow) (t : DbRow)
    (hdisj : ∀ c ∈ pkCols, c ∉ nonPk) :
    mergeUpdate pkCols nonPk S (mergeUpdate pkCols nonPk S t)
      = mergeUpdate pkCols nonPk S t := by
  cases hf : S.find? (fun s => decide (projRow pkCols s = projRow pkCols t)) with
  | none =>
      have h1 : mergeUpdate pkCols nonPk S t = t := by
        unfold mergeUpdate
        rw [hf]
      rw [h1, h1]
  | some s0 =>
      have h1 : mergeUpdate pkCols nonPk S t = updateRow nonPk t s0 := by
        unfold mergeUpdate
        rw [hf]
      have h2 : mergeUpdate pkCols nonPk S (updateRow nonPk t s0)
          = updateRow nonPk (updateRow nonPk t s0) s0 := by
        unfold mergeUpdate
        simp only [projRow_updateRow pkCols nonPk t s0 hdisj]
        rw [hf]
      rw [h1, h2, updateRow_updateRow]

/-- A source row with a distinct key is its own match, so the matched-update
fixes it. -/
theorem mergeUpdate_self (pkCols nonPk : List String) (S : List DbRow) (s : DbRow)
    (hproj : (S.map (projRow pkCols)).Nodup) (hkeys : (s.map Prod.fst).Nodup)
    (hs : s ∈ S) :
    mergeUpdate pkCols nonPk S s = s := by
  unfold mergeUpdate
  rw [find?_proj_self pkCols S s hproj hs]
  exact updateRow_self nonPk s hkeys

/-- Idempotence of the generated set-based merge: merging the same source
row-set twice into a destination gives the same rows as merging it once,
provided the key and updated column sets are disjoint (true by construction),
the source rows have pairwise-distinct primary-key projections, and each
source row binds each column once. -/
theorem mergeRows_idem (pkCols nonPk : List String) (T S : List DbRow)
    (hdisj : ∀ c ∈ pkCols, c ∉ nonPk)
    (hproj : (S.map (projRow pkCols)).Nodup)
    (hkeys : ∀ r ∈ S, (r.map Prod.fst).Nodup) :
    mergeRows pkCols nonPk (mergeRows pkCols nonPk T S) S = mergeRows pkCols nonPk T S := by
  have hcov : ∀ s ∈ S,
      (mergeRows pkCols nonPk T S).any
        (fun t => decide (projRow pkCols t = projRow pkCols s)) = true := by
    intro s hs
    unfold mergeRows
    rw [List.any_append]
    cases hc : T.any (fun t => decide (projRow pkCols t = projRow pkCols s)) with
    | true =>
        obtain ⟨t, ht, hPt⟩ := List.any_eq_true.mp hc
        have hPt2 : projRow pkCols t = projRow pkCols s := of_decide_eq_true hPt
        have hA : (T.map (mergeUpdate pkCols nonPk S)).any
            (fun t => decide (projRow pkCols t = projRow pkCols s)) = true := by
          apply List.any_eq_true.mpr
          refine ⟨mergeUpdate pkCols nonPk S t, List.mem_map_of_mem _ ht, ?_⟩
          simp [projRow_mergeUpdate pkCols nonPk S t hdisj, hPt2]
        rw [hA]
        simp
    | false =>
        have hB : (S.filter (fun s => ! T.any
            (fun t => decide (projRow pkCols t = projRow pkCols s)))).any
            (fun t => decide (projRow pkCols t = projRow pkCols s)) = true := by
          apply List.any_eq_true.mpr
          refine ⟨s, List.mem_filter.mpr ⟨hs, by simp [hc]⟩, by simp⟩
        rw [hB]
        simp
  have hfilter : S.filter (fun s => ! (mergeRows pkCols nonPk T S).any
      (fun t => decide (projRow pkCols t = projRow pkCols s))) = [] := by
    apply List.filter_eq_nil_iff.mpr
    intro s hs
    simp [hcov s hs]
  have hmap : (mergeRows pkCols nonPk T S).map (mergeUpdate pkCols nonPk S)
      = mergeRows pkCols nonPk T S := by
    unfold mergeRows
    rw [List.map_append]
    congr 1
    · rw [List.map_map]
      apply List.map_congr_left
      intro t _
      exact mergeUpdate_mergeUpdate pkCols nonPk S t hdisj
    · have hthis : ∀ s ∈ S.filter (fun s => ! T.any
          (fun t => decide (projRow pkCols t = projRow pkCols s))),
          mergeUpdate pkCols nonPk S s = id s := by
        intro s hsf
        have hs : s ∈ S := (List.mem_filter.mp hsf).1
        exact mergeUpdate_self pkCols nonPk S s hproj (hkeys s hs) hs
      rw [List.map_congr_left hthis, List.map_id]
  have houter : mergeRows pkCols nonPk (mergeRows pkCols nonPk T S) S =
      (mergeRows pkCols nonPk T S).map (mergeUpdate pkCols nonPk S)
      ++ S.filter (fun s => ! (mergeRows pkCols nonPk T S).any
          (fun t => decide (projRow pkCols t = projRow pkCols s))) := rfl
  rw [houter, hfilter, hmap, List.append_nil]

/-- C7: `merge_dataframe_into_table` is idempotent on a table with exactly one
primary-key constraint: running it twice with the same row-set leaves the
destination rows as running it once (matched rows have their non-key columns
updated from the staged row, unmatched rows are inserted in full, and the
staging table is truncated after each call, so the second call stages exactly
the same rows again).  The hypotheses ask for a fresh staging table at the
start, pairwise-distinct primary-key values in the row-set (a duplicate-keyed
source would make the real `MERGE` statement fail, on both runs alike), and
rows binding each column once. -/
theorem C7_merge_idempotent (meta : TableMeta) (table : String) (df : DataFrame)
    (st : MergeSession) (pkName : String) (pkCols : List String)
    (hmeta : meta.pkConstraints = [(pkName, pkCols)])
    (hclean : st.tmpCreated = false)
    (hproj : (df.rows.map (projRow pkCols)).Nodup)
    (hkeys : ∀ r ∈ df.rows, (r.map Prod.fst).Nodup) :
    ((merge_dataframe_into_table meta table df
        (merge_dataframe_into_table meta table df st).1).1).dest
      = ((merge_dataframe_into_table meta table df st).1).dest := by
  by_cases hrows : df.rows.length = 0
  · simp [merge_dataframe_into_table, hrows]
  · have hpk : get_primary_key_name meta = Except.ok pkName := by
      simp [get_primary_key_name, hmeta]
    have hkc : get_key_columns meta pkName = pkCols := by
      simp [get_key_columns, hmeta]
    have hdisj : ∀ c ∈ pkCols, c ∉ df.columns.filter (fun col => decide (col ∉ pkCols)) := by
      intro c hc hmem
      have hflt := List.of_mem_filter hmem
      simp at hflt
      exact hflt hc
    simp only [merge_dataframe_into_table, hrows, hpk, hkc, load_dataframe_to_table,
      hclean, if_false, if_true, Bool.false_eq_true, List.nil_append]
    exact mergeRows_idem pkCols (df.columns.filter (fun col => decide (col ∉ pkCols)))
      st.dest df.rows hdisj hproj hkeys

/-- Witness for C7 on a concrete table and row-set: one staged row updates an
existing destination row, the other is inserted; the second merge leaves the
destination unchanged. -/
theorem C7_merge_idempotent_witness :
    ((merge_dataframe_into_table
        { columns := ["id", "v"], pkConstraints := [("pk", ["id"])] } "conversation_parts"
        { columns := ["id", "v"],
          rows := [[("id", "1"), ("v", "a")], [("id", "2"), ("v", "b")]] }
        ((merge_dataframe_into_table
          { columns := ["id", "v"], pkConstraints := [("pk", ["id"])] } "conversation_parts"
          { columns := ["id", "v"],
            rows := [[("id", "1"), ("v", "a")], [("id", "2"), ("v", "b")]] }
          { dest := [[("id", "1"), ("v", "z")], [("id", "3"), ("v", "c")]],
            tmpCreated := false, tmpRows := [], log := [] }).1)).1).dest
      = ((merge_dataframe_into_table
          { columns := ["id", "v"], pkConstraints := [("pk", ["id"])] } "conversation_parts"
          { columns := ["id", "v"],
            rows := [[("id", "1"), ("v", "a")], [("id", "2"), ("v", "b")]] }
          { dest := [[("id", "1"), ("v", "z")], [("id", "3"), ("v", "c")]],
            tmpCreated := false, tmpRows := [], log := [] }).1).dest :=
  C7_merge_idempotent
    { columns := ["id", "v"], pkConstraints := [("pk", ["id"])] } "conversation_parts"
    { columns := ["id", "v"], rows := [[("id", "1"), ("v", "a")], [("id", "2"), ("v", "b")]] }
    { dest := [[("id", "1"), ("v", "z")], [("id", "3"), ("v", "c")]],
      tmpCreated := false, tmpRows := [], log := [] }
    "pk" ["id"] rfl rfl (by decide) (by decide)

/-! ## Claims about the pipeline engine -/

/-- C8: `run_all_payloads` is a no-op (not an error) on the empty queue;
otherwise it processes payloads strictly one at a time in queue order, fully
processing each one (its `run_payload` completes) and deleting it from the
queue before the next is touched — visible in the event trace as
`load p, unload p` pairs in queue order — so at every point of the trace at
most one payload is resident (loads exceed unloads by at most one),
independently of the queue length. -/
theorem C8_one_payload_at_a_time {σ π : Type} (steps : List (PipeStep σ π)) (s : σ) :
    (run_all_payloads steps s ([] : List π) = ((s, []), none, [])) ∧
    (∀ (l : List π) (s2 : σ), (run_all_payloads steps s2 l).2.1 = none →
      (run_all_payloads steps s2 l).2.2
        = l.flatMap (fun p => [MemEv.load p, MemEv.unload p])) ∧
    (∀ (l : List π) (s2 : σ) (n : Nat),
      (((run_all_payloads steps s2 l).2.2.take n).filter MemEv.isLoad).length ≤
      (((run_all_payloads steps s2 l).2.2.take n).filter
        (fun ev => ! MemEv.isLoad ev)).length + 1) := by
  refine ⟨rfl, ?_, ?_⟩
  · intro l
    induction l with
    | nil => intro s2 hok; rfl
    | cons p rest ih =>
        intro s2 hok
        simp only [run_all_payloads] at hok ⊢
        cases hrp : run_payload steps s2 p with
        | mk sp exc =>
            cases exc with
            | none =>
                simp only [hrp] at hok ⊢
                rw [List.flatMap_cons]
                simp [ih sp.1 hok]
            | some e =>
                rw [hrp] at hok
                simp at hok
  · intro l
    induction l with
    | nil => intro s2 n; simp [run_all_payloads]
    | cons p rest ih =>
        intro s2 n
        simp only [run_all_payloads]
        cases hrp : run_payload steps s2 p with
        | mk sp exc =>
            cases exc with
            | none =>
                simp only
                match n with
                | 0 => simp
                | 1 => simp [MemEv.isLoad]
                | n + 2 =>
                    have hl : MemEv.isLoad (MemEv.load p) = true := rfl
                    have hu : MemEv.isLoad (MemEv.unload p) = false := rfl
                    simp only [List.take_succ_cons, List.filter_cons, hl, hu, Bool.not_true,
                      Bool.not_false, eq_self_iff_true, if_true, Bool.false_eq_true, if_false,
                      List.length_cons]
                    have hih := ih sp.1 n
                    omega
            | some e =>
                simp only
                match n with
                | 0 => simp
                | n + 1 => simp [MemEv.isLoad]

/-- Witness for C8: two payloads processed by a one-step pipeline produce the
trace `load, unload, load, unload`. -/
theorem C8_one_payload_at_a_time_witness :
    (run_all_payloads [fun (s : Nat) (p : Nat) => ((s + 1, p), none)] 0 ([] : List Nat)
      = ((0, []), none, [])) ∧
    (run_all_payloads [fun (s : Nat) (p : Nat) => ((s + 1, p), none)] 0 [7, 9]).2.2
      = [MemEv.load 7, MemEv.unload 7, MemEv.load 9, MemEv.unload 9] := by
  have h := C8_one_payload_at_a_time [fun (s : Nat) (p : Nat) => ((s + 1, p), none)] 0
  refine ⟨h.1, ?_⟩
  rw [h.2.1 [7, 9] 0 rfl]
  rfl

/-- The inner `try` body enters pre-execution, and payload processing exactly
when pre-execution did not raise. -/
theorem innerRun_phases {σ π : Type} (m : PipelineModel σ π) (s0 : σ × List π) :
    (innerRun m s0).2 = [Phase.preExecution] ∨
    (innerRun m s0).2 = [Phase.preExecution, Phase.processPayloads] := by
  unfold innerRun
  cases h : runSteps m.pre_execution_steps s0 with
  | mk s1 exc =>
      cases exc with
      | none => right; rfl
      | some e => left; rfl

/-- Catching the early-stop signal does not change which phases were
entered. -/
theorem caughtRun_phases {σ π : Type} (m : PipelineModel σ π) (s0 : σ × List π) :
    (caughtRun m s0).2 = (innerRun m s0).2 := by
  unfold caughtRun
  rcases h : innerRun m s0 with ⟨⟨s1, _ | e⟩, phs⟩
  · rfl
  · cases e <;> rfl

/-- C1: the top-level contract of `Pipeline.execute`.  (i) A
`StopPipelineException` pending from the pre-execution steps or from payload
processing is caught — not treated as an error — while any other pending
exception passes through the handler unchanged; (ii) whenever the inner scope
ends with no uncaught exception (normal completion or the caught early-stop),
the post-execution steps run, and when they succeed the caller sees a normal
return with the error-handling phase never entered; (iii) an uncaught
exception from the inner scope triggers the error-handling steps exactly once
and is then re-raised unchanged to the caller; (iv) likewise for an exception
raised by a post-execution step.  In (iii) and (iv) the error-handling steps
are assumed not to raise themselves: when one does, Python propagates that new
exception instead of the original (spec §4.1: errors inside error-handling
propagate uncaught). -/
theorem C1_execute_toplevel_contract {σ π : Type} (m : PipelineModel σ π) (s0 : σ × List π) :
    (∀ s1 phs msg, innerRun m s0 = ((s1, some (PyExc.stopPipelineException msg)), phs) →
        caughtRun m s0 = ((s1, none), phs)) ∧
    (∀ s1 phs e, innerRun m s0 = ((s1, some e), phs) →
        (∀ msg, e ≠ PyExc.stopPipelineException msg) →
        caughtRun m s0 = ((s1, some e), phs)) ∧
    (∀ s1 phs, caughtRun m s0 = ((s1, none), phs) →
        Phase.postExecution ∈ (Pipeline.execute m s0).phases ∧
        (∀ s2, runSteps m.post_execution_steps s1 = (s2, none) →
          Pipeline.execute m s0 =
            { state := s2, result := Except.ok (),
              phases := phs ++ [Phase.postExecution] } ∧
          Phase.errorHandling ∉ phs ++ [Phase.postExecution])) ∧
    (∀ s1 phs e, caughtRun m s0 = ((s1, some e), phs) →
        ∀ s3, runSteps m.error_handling_steps s1 = (s3, none) →
          Pipeline.execute m s0 =
            { state := s3, result := Except.error e,
              phases := phs ++ [Phase.errorHandling] } ∧
          (phs ++ [Phase.errorHandling]).count Phase.errorHandling = 1) ∧
    (∀ s1 phs e s2, caughtRun m s0 = ((s1, none), phs) →
        runSteps m.post_execution_steps s1 = (s2, some e) →
        ∀ s3, runSteps m.error_handling_steps s2 = (s3, none) →
          Pipeline.execute m s0 =
            { state := s3, result := Except.error e,
              phases := phs ++ [Phase.postExecution, Phase.errorHandling] } ∧
          (phs ++ [Phase.postExecution, Phase.errorHandling]).count Phase.errorHandling = 1) := by
  have hph : ∀ s1e phs, caughtRun m s0 = (s1e, phs) →
      phs = [Phase.preExecution] ∨ phs = [Phase.preExecution, Phase.processPayloads] := by
    intro s1e phs h
    have h2 := caughtRun_phases m s0
    rw [h] at h2
    rcases innerRun_phases m s0 with h3 | h3 <;> rw [h3] at h2
    · left; exact h2
    · right; exact h2
  refine ⟨?_, ?_, ?_, ?_, ?_⟩
  · intro s1 phs msg h
    unfold caughtRun
    rw [h]
  · intro s1 phs e h hne
    unfold caughtRun
    rw [h]
    cases e with
    | stopPipelineException msg => exact absurd rfl (hne msg)
    | stopPayloadException msg => rfl
    | apiErrorException => rfl
    | missingPrimaryKeyException msg => rfl
    | typeError msg => rfl
    | otherException tag => rfl
  · intro s1 phs h
    constructor
    · cases hpost : runSteps m.post_execution_steps s1 with
      | mk s2 exc =>
          cases exc with
          | none => simp [Pipeline.execute, h, hpost]
          | some e =>
              cases herr : runSteps m.error_handling_steps s2 with
              | mk s3 exc2 =>
                  cases exc2 with
                  | none => simp [Pipeline.execute, h, hpost, herr]
                  | some e2 => simp [Pipeline.execute, h, hpost, herr]
    · intro s2 hpost
      constructor
      · simp [Pipeline.execute, h, hpost]
      · rcases hph _ _ h with h1 | h1 <;> rw [h1] <;> decide
  · intro s1 phs e h s3 herr
    constructor
    · simp [Pipeline.execute, h, herr]
    · rcases hph _ _ h with h1 | h1 <;> rw [h1] <;> decide
  · intro s1 phs e s2 h hpost s3 herr
    constructor
    · simp [Pipeline.execute, h, hpost, herr]
    · rcases hph _ _ h with h1 | h1 <;> rw [h1] <;> decide

/-- Witness for C1: a pipeline whose pre-execution raises the early-stop
signal commits through post-execution and returns normally; one whose
pre-execution raises an ordinary exception runs error handling once and
re-raises it. -/
theorem C1_execute_toplevel_contract_witness :
    (Pipeline.execute c1StopModel ((0 : Nat), ([] : List Nat)) =
      { state := (0, []), result := Except.ok (),
        phases := [Phase.preExecution, Phase.postExecution] } ∧
     Phase.errorHandling ∉ [Phase.preExecution, Phase.postExecution]) ∧
    (Pipeline.execute c1ErrModel ((0 : Nat), ([] : List Nat)) =
      { state := (0, []), result := Except.error (PyExc.otherException "boom"),
        phases := [Phase.preExecution, Phase.errorHandling] } ∧
     [Phase.preExecution, Phase.errorHandling].count Phase.errorHandling = 1) := by
  have h1 := (C1_execute_toplevel_contract c1StopModel ((0 : Nat), ([] : List Nat))).2.2.1
    ((0 : Nat), ([] : List Nat)) [Phase.preExecution] rfl
  have h2 := (C1_execute_toplevel_contract c1ErrModel ((0 : Nat), ([] : List Nat))).2.2.2.1
    ((0 : Nat), ([] : List Nat)) [Phase.preExecution] (PyExc.otherException "boom") rfl
    ((0 : Nat), ([] : List Nat)) rfl
  exact ⟨h1.2 ((0 : Nat), ([] : List Nat)) rfl, h2⟩

/-! ## Claims about the conversation pipeline (watermark) -/

/-- C6: when the max-change-time query succeeds but finds no qualifying
(`"conversation"`-typed) entity, `GetPayloads` raises the early-stop signal and
the run proceeds directly to post-execution: the caller sees a normal return,
the phases are exactly pre-execution then post-execution (no payload
processing), no write statement is issued, the `conversations` table and the
committed watermark are unchanged, and the transaction is committed. -/
theorem C6_no_new_data_commits_cleanly (s0 : IcState) (ps0 : List IcPayload)
    (hok : (s0.maxEnv 0).status = "200 OK")
    (hempty : conversationTypeOnly (s0.maxEnv 0).conversations = [])
    (hclean : s0.committedRows = s0.rows) :
    (Pipeline.execute IntercomConversationPipeline (s0, ps0)).result = Except.ok () ∧
    (Pipeline.execute IntercomConversationPipeline (s0, ps0)).phases
      = [Phase.preExecution, Phase.postExecution] ∧
    ((Pipeline.execute IntercomConversationPipeline (s0, ps0)).state.1).rows = s0.rows ∧
    ((Pipeline.execute IntercomConversationPipeline (s0, ps0)).state.1).committedRows
      = s0.committedRows ∧
    ((Pipeline.execute IntercomConversationPipeline (s0, ps0)).state.1).writeCount
      = s0.writeCount ∧
    ((Pipeline.execute IntercomConversationPipeline (s0, ps0)).state.1).committed = true ∧
    (Pipeline.execute IntercomConversationPipeline (s0, ps0)).state.2 = ps0 := by
  have hmax2 : ∀ st R b, (get_conversation_max_updated_timestamp s0.maxEnv st R b).1
      = Except.ok none := by
    intro st R b
    rw [get_max_first_ok s0.maxEnv st R b hok]
    simp [hempty, pyMax]
  have hout : Pipeline.execute IntercomConversationPipeline (s0, ps0) =
      { state :=
          ({ s0 with connected := true, committed := true, committedRows := s0.rows }, ps0),
        result := Except.ok (),
        phases := [Phase.preExecution, Phase.postExecution] } := by
    simp only [Pipeline.execute, caughtRun, innerRun, IntercomConversationPipeline, runSteps,
      GetDatabaseConnection.execute, GetPayloads.execute, CommitTransaction.execute, hmax2]
    rfl
  rw [hout]
  exact ⟨rfl, rfl, rfl, by simp [hclean], rfl, rfl, rfl⟩

/-- Witness for C6 at a concrete run state holding one committed row. -/
theorem C6_no_new_data_commits_cleanly_witness :
    (Pipeline.execute IntercomConversationPipeline (c6WitState, [])).result = Except.ok () ∧
    (Pipeline.execute IntercomConversationPipeline (c6WitState, [])).phases
      = [Phase.preExecution, Phase.postExecution] ∧
    ((Pipeline.execute IntercomConversationPipeline (c6WitState, [])).state.1).committedRows
      = [("a", 3)] ∧
    ((Pipeline.execute IntercomConversationPipeline (c6WitState, [])).state.1).writeCount = 0 := by
  have h := C6_no_new_data_commits_cleanly c6WitState [] rfl rfl rfl
  exact ⟨h.1, h.2.1, h.2.2.2.1, h.2.2.2.2.1⟩

/-- The start of a fold by `max` bounds the fold from below. -/
theorem le_foldl_max (l : List Nat) (x : Nat) : x ≤ l.foldl max x := by
  induction l generalizing x with
  | nil => simp
  | cons a t ih => exact le_trans (le_max_left x a) (ih (max x a))

/-- Every member of the list bounds a fold by `max` from below. -/
theorem mem_le_foldl_max (l : List Nat) : ∀ x a, a ∈ l → a ≤ l.foldl max x := by
  induction l with
  | nil => intro x a h; cases h
  | cons b t ih =>
      intro x a h
      rcases List.mem_cons.mp h with rfl | ht
      · exact le_trans (le_max_right x a) (le_foldl_max t (max x a))
      · exact ih (max x b) a ht

/-- A common upper bound of the start and the members bounds the fold. -/
theorem foldl_max_le (l : List Nat) (x c : Nat) (hx : x ≤ c) (h : ∀ a ∈ l, a ≤ c) :
    l.foldl max x ≤ c := by
  induction l generalizing x with
  | nil => simpa
  | cons b t ih =>
      exact ih (max x b) (max_le hx (h b (by simp))) (fun a ha => h a (by simp [ha]))

/-- A fold by `max` is the start or one of the members. -/
theorem foldl_max_mem (l : List Nat) (x : Nat) : l.foldl max x = x ∨ l.foldl max x ∈ l := by
  induction l generalizing x with
  | nil => left; rfl
  | cons b t ih =>
      rcases ih (max x b) with h | h
      · rcases max_choice x b with hm | hm
        · left; rw [List.foldl_cons, h, hm]
        · right; rw [List.foldl_cons, h, hm]; exact List.mem_cons_self b t
      · right; exact List.mem_cons_of_mem b h

/-- Python's `max` returns a member of the list. -/
theorem pyMax_mem (l : List Nat) (m : Nat) (h : pyMax l = some m) : m ∈ l := by
  match l with
  | [] => cases h
  | x :: xs =>
      simp only [pyMax, Option.some.injEq] at h
      subst h
      rcases foldl_max_mem xs x with h2 | h2
      · rw [h2]; exact List.mem_cons_self x xs
      · exact List.mem_cons_of_mem x h2

/-- `coalesce(max(...), 0)` of a list containing `c` and bounded by `c` is
`c`. -/
theorem coalesceMax0_eq_of (l : List Nat) (c : Nat) (hmem : c ∈ l) (hub : ∀ a ∈ l, a ≤ c) :
    coalesceMax0 l = c := by
  match l with
  | [] => cases hmem
  | x :: xs =>
      simp only [coalesceMax0, pyMax, Option.getD_some]
      refine le_antisymm ?_ ?_
      · exact foldl_max_le xs x c (hub x (by simp)) (fun a ha => hub a (by simp [ha]))
      · rcases List.mem_cons.mp hmem with rfl | hc
        · exact le_foldl_max xs c
        · exact mem_le_foldl_max xs x c hc

/-- The max-change-time filter selects exactly `updated_at > start`. -/
theorem maxUpdatedQuery_matches (w u : Nat) :
    (maxUpdatedQuery w).matches u = true ↔ w < u := by
  simp [maxUpdatedQuery, QueryFilter.matches]

/-- C5: the watermark never moves backwards across successful runs.  Let run K
resolve end timestamp `endK`, write the `conversations` rows `written` (each
one's `updated_at` capped by `ParseApiData` via `min` with `endK` — including
the row of the conversation that achieved `endK`, written as exactly `endK`,
since the remote's `updated_at` values never decrease) into a table whose
prior rows respect the watermark, and commit.  Then: every written row is at
most `endK`; the next run's start — `coalesce(max(updated_at), 0)` over the
committed table — is exactly `endK`; and whenever run K+1's max-change-time
query resolves an end timestamp (from a response honouring the
`updated_at > start` filter it was sent), that end is at least `endK`. -/
theorem C5_watermark_monotonicity (dbRows written : List Nat) (endK R b : Nat)
    (env : Nat → SearchResponse)
    (hcap : ∀ u ∈ written, ∃ a, u = ParseApiData.cappedUpdatedAt a endK)
    (hhit : endK ∈ written)
    (hdb : ∀ u ∈ dbRows, u ≤ endK)
    (hok : (env 0).status = "200 OK")
    (hfilter : ∀ c ∈ (env 0).conversations,
        (maxUpdatedQuery (coalesceMax0 (dbRows ++ written))).matches c.updated_at = true) :
    (∀ u ∈ written, u ≤ endK) ∧
    coalesceMax0 (dbRows ++ written) = endK ∧
    (∀ e2, (get_conversation_max_updated_timestamp env
        (coalesceMax0 (dbRows ++ written)) R b).1 = Except.ok (some e2) → endK ≤ e2) := by
  have hwle : ∀ u ∈ written, u ≤ endK := by
    intro u hu
    obtain ⟨a, rfl⟩ := hcap u hu
    exact min_le_right a endK
  have hcoal : coalesceMax0 (dbRows ++ written) = endK := by
    apply coalesceMax0_eq_of
    · exact List.mem_append.mpr (Or.inr hhit)
    · intro a ha
      rcases List.mem_append.mp ha with h | h
      · exact hdb a h
      · exact hwle a h
  refine ⟨hwle, hcoal, ?_⟩
  intro e2 he
  rw [get_max_first_ok env _ R b hok] at he
  simp only [Except.ok.injEq] at he
  have hmem := pyMax_mem _ e2 he
  obtain ⟨c, hc, hce⟩ := List.mem_map.mp hmem
  have hcmem : c ∈ (env 0).conversations := by
    have hc2 : c ∈ (env 0).conversations ∧ c.source_type = "conversation" := by
      simpa [conversationTypeOnly, List.mem_filter] using hc
    exact hc2.1
  have hgt := hfilter c hcmem
  rw [maxUpdatedQuery_matches, hcoal] at hgt
  omega

/-- Witness for C5: table rows `[3]`, written rows `[5]` capped at `endK = 5`,
a next-run response with one conversation at `updated_at = 9 > 5`. -/
theorem C5_watermark_monotonicity_witness :
    coalesceMax0 ([3] ++ [5]) = 5 ∧ (5 : Nat) ≤ 9 := by
  have h := C5_watermark_monotonicity [3] [5] 5 5 5
    (fun _ => { status := "200 OK",
                conversations := [{ id := "a", updated_at := 9, source_type := "conversation" }],
                total_pages := 1 })
    (by
      intro u hu
      have hu5 : u = 5 := by simpa using hu
      subst hu5
      exact ⟨5, rfl⟩)
    (by simp) (by intro u hu; simp at hu; omega) rfl
    (by
      intro c hcmem
      have hc : c = { id := "a", updated_at := 9, source_type := "conversation" } := by
        simpa using hcmem
      subst hc
      rw [maxUpdatedQuery_matches]
      decide)
  exact ⟨h.2.1, h.2.2 9 rfl⟩
